import Mathlib

/-!
Shallow embedding of the DPRD PRD-generator workflow core
(frontend component PRDGenerator: markdown renderer, countdown timer,
tip rotator, answer set and the step-driven workflow state machine),
together with theorems checking the natural-language specification
against this embedding.
-/

namespace DPRD

/-! ## Markdown renderer (source: renderMarkdown / formatInlineStyles) -/

/-- Inline node produced by the inline-styles pass: a literal text
segment, a bold span (double-asterisk pair) or a code span
(single-backtick pair). -/
inductive Inline where
  | text (s : String)
  | bold (s : String)
  | code (s : String)
deriving DecidableEq

/-- Block node produced by the per-line markdown classifier. -/
inductive Block where
  | h1 (s : String)
  | h2 (s : String)
  | h3 (s : String)
  | hr
  | li (xs : List Inline)
  | br
  | p (xs : List Inline)
deriving DecidableEq

/-- The backtick character (written by code so that the source file
itself carries no backtick outside strings). -/
def btick : Char := Char.ofNat 96

/-- Boolean prefix test on character lists (JS String.startsWith). -/
def startsW : List Char → List Char → Bool
  | [], _ => true
  | _ :: _, [] => false
  | p :: ps, c :: cs => if p = c then startsW ps cs else false

/-- Boolean suffix test on character lists (JS String.endsWith; an
overlap such as endsWith "**" on the two-character string "**" counts,
exactly as in JS). -/
def endsW (d cs : List Char) : Bool := startsW d.reverse cs.reverse

/-- JS s.slice(n, -n) on a character list: drop n characters at each
end, empty when fewer than 2*n characters are present. -/
def sliceOff (n : Nat) (cs : List Char) : List Char :=
  (cs.drop n).take (cs.length - 2 * n)

/-- A match of the regex (two asterisks, a nonempty run of
non-asterisks, two asterisks) starting at the head of the list:
returns (inner text, remainder after the closing pair). -/
def boldHere (cs : List Char) : Option (List Char × List Char) :=
  match cs with
  | c1 :: c2 :: rest =>
    if c1 = '*' ∧ c2 = '*' then
      match rest.takeWhile (fun x => x != '*'), rest.dropWhile (fun x => x != '*') with
      | _ :: _, a1 :: a2 :: tail =>
        if a1 = '*' ∧ a2 = '*' then some (rest.takeWhile (fun x => x != '*'), tail)
        else none
      | _, _ => none
    else none
  | _ => none

/-- Leftmost match of the bold regex in the list: returns
(text before the match, inner text, remainder after the match). -/
def findBold : List Char → Option (List Char × List Char × List Char)
  | [] => none
  | c :: cs =>
    match boldHere (c :: cs) with
    | some (inner, rest) => some ([], inner, rest)
    | none =>
      match findBold cs with
      | some (pre, inner, rest) => some (c :: pre, inner, rest)
      | none => none

/-- A match of the regex (backtick, nonempty run of non-backticks,
backtick) starting at the head of the list. -/
def codeHere (cs : List Char) : Option (List Char × List Char) :=
  match cs with
  | c1 :: rest =>
    if c1 = btick then
      match rest.takeWhile (fun x => x != btick), rest.dropWhile (fun x => x != btick) with
      | _ :: _, a1 :: tail =>
        if a1 = btick then some (rest.takeWhile (fun x => x != btick), tail)
        else none
      | _, _ => none
    else none
  | _ => none

/-- Leftmost match of the code-span regex in the list. -/
def findCode : List Char → Option (List Char × List Char × List Char)
  | [] => none
  | c :: cs =>
    match codeHere (c :: cs) with
    | some (inner, rest) => some ([], inner, rest)
    | none =>
      match findCode cs with
      | some (pre, inner, rest) => some (c :: pre, inner, rest)
      | none => none

/-- JS String.split on the capturing bold regex, fueled by the input
length: the result alternates non-matching parts (possibly empty) and
matched parts, the matched parts keeping their asterisk delimiters. -/
def splitBoldF : Nat → List Char → List (List Char)
  | 0, cs => [cs]
  | n + 1, cs =>
    match findBold cs with
    | none => [cs]
    | some (pre, inner, rest) =>
      pre :: ('*' :: '*' :: (inner ++ ['*', '*'])) :: splitBoldF n rest

/-- text.split on the capturing bold regex. -/
def splitBold (cs : List Char) : List (List Char) := splitBoldF cs.length cs

/-- JS String.split on the capturing code-span regex, fueled. -/
def splitCodeF : Nat → List Char → List (List Char)
  | 0, cs => [cs]
  | n + 1, cs =>
    match findCode cs with
    | none => [cs]
    | some (pre, inner, rest) =>
      pre :: (btick :: (inner ++ [btick])) :: splitCodeF n rest

/-- part.split on the capturing code-span regex. -/
def splitCode (cs : List Char) : List (List Char) := splitCodeF cs.length cs

/-- The inner map of formatInlineStyles: each code-split part becomes a
code span when it starts and ends with a backtick, else literal text. -/
def codePass (part : List Char) : List Inline :=
  (splitCode part).map (fun q =>
    if startsW [btick] q && endsW [btick] q then Inline.code (String.mk (sliceOff 1 q))
    else Inline.text (String.mk q))

/-- formatInlineStyles from the source: split on the bold regex; a part
wrapped in double asterisks becomes a bold span, every other part goes
through the code-span pass; the nested arrays flatten. -/
def formatInlineC (cs : List Char) : List Inline :=
  (splitBold cs).flatMap (fun part =>
    if startsW ['*', '*'] part && endsW ['*', '*'] part then
      [Inline.bold (String.mk (sliceOff 2 part))]
    else codePass part)

/-- formatInlineStyles on a string. -/
def formatInlineStyles (s : String) : List Inline := formatInlineC s.data

/-- The per-line classifier of renderMarkdown, in source priority
order: h1, h2, h3, fenced-code delimiter (no output node), horizontal
rule, list item, blank line, paragraph. -/
def renderLineC (cs : List Char) : Option Block :=
  if startsW ['#', ' '] cs then some (Block.h1 (String.mk (cs.drop 2)))
  else if startsW ['#', '#', ' '] cs then some (Block.h2 (String.mk (cs.drop 3)))
  else if startsW ['#', '#', '#', ' '] cs then some (Block.h3 (String.mk (cs.drop 4)))
  else if startsW [btick, btick, btick] cs then none
  else if cs = ['-', '-', '-'] then some Block.hr
  else if startsW ['-', ' '] cs then some (Block.li (formatInlineC (cs.drop 2)))
  else if cs.all (fun c => c.isWhitespace) then some Block.br
  else some (Block.p (formatInlineC cs))

/-- JS text.split with a newline separator: keeps empty pieces. -/
def splitLines : List Char → List (List Char)
  | [] => [[]]
  | c :: cs =>
    if c = '\n' then [] :: splitLines cs
    else
      match splitLines cs with
      | [] => [[c]]
      | l :: ls => (c :: l) :: ls

/-- renderMarkdown from the source: split into lines, classify each
line, a fence line contributing no node. -/
def renderMarkdown (text : String) : List Block :=
  (splitLines text.data).filterMap renderLineC

/-! ## Countdown timer (source: timer effect and step-change effect) -/

/-- State of the countdown timer: remaining whole seconds and whether
the periodic interval source is live. -/
structure TimerState where
  remaining : Nat
  live : Bool
deriving DecidableEq

/-- Starting the timer: remaining is set to the budget and the timer
effect creates the interval only when the remaining time is positive. -/
def timerStart (budget : Nat) : TimerState :=
  { remaining := budget, live := decide (0 < budget) }

/-- One interval tick from the source callback: at one second or less
the interval clears itself and remaining becomes 0, otherwise remaining
decrements by one; a dead interval fires no tick. -/
def timerTick (t : TimerState) : TimerState :=
  if t.live then
    (if t.remaining ≤ 1 then { remaining := 0, live := false }
     else { remaining := t.remaining - 1, live := t.live })
  else t

/-- Stopping the timer (clearInterval): the interval source is
released, remaining is left as it is. -/
def timerStop (t : TimerState) : TimerState :=
  { remaining := t.remaining, live := false }

/-- The expired observable: remaining equals 0. -/
def timerExpired (t : TimerState) : Bool := t.remaining == 0

/-! ## Tip rotator (source: PRD_TIPS and the tip rotation effect) -/

/-- The fixed advisory list from the source, as (title, description)
pairs. -/
def PRD_TIPS : List (String × String) :=
  [("Be Specific with Tech Stack",
    "Name exact libraries and versions (e.g., \x27TanStack Query v5\x27 not just \x27data fetching library\x27)"),
   ("Define Edge Cases Early",
    "Every feature should have error states, empty states, and loading states documented"),
   ("Include UI Specifications",
    "Specify colors (hex), spacing, typography, and component behaviors for consistent implementation"),
   ("Write User Flows Step-by-Step",
    "Break down each feature into numbered steps: User does X → System responds Y → User sees Z"),
   ("Document API Contracts",
    "Include request/response shapes for every endpoint to avoid backend/frontend mismatches"),
   ("Prioritize with Phases",
    "Split features into MVP, Enhanced, and Scale phases to focus development efforts"),
   ("Think About Authentication First",
    "Auth decisions affect data models, API design, and UI flows throughout the entire app"),
   ("Consider Mobile Responsiveness",
    "Define breakpoints and layout changes for different screen sizes upfront")]

/-- State of the tip rotator: current index into PRD_TIPS and whether
the rotation interval is live. -/
structure RotState where
  idx : Nat
  live : Bool
deriving DecidableEq

/-- Starting the rotator: the effect resets the index to 0 and creates
the rotation interval. -/
def rotStart : RotState := { idx := 0, live := true }

/-- One rotation tick from the source callback: the index advances by
one modulo the tip-list length; a dead interval fires no tick. -/
def rotTick (r : RotState) : RotState :=
  if r.live then { idx := (r.idx + 1) % PRD_TIPS.length, live := r.live } else r

/-- Stopping the rotator (clearInterval): the interval is released, the
index is left as it is. -/
def rotStop (r : RotState) : RotState := { idx := r.idx, live := false }

/-! ## Workflow state machine (source: PRDGenerator component state and
handlers) -/

/-- One selectable option of a clarifying question. -/
structure QOption where
  value : String
  label : String
deriving DecidableEq

/-- A clarifying question returned by the analysis collaborator. -/
structure Question where
  id : String
  category : String
  question : String
  options : List QOption
deriving DecidableEq

/-- The workflow phase: source steps 1, 2, 2.5 and 3. -/
inductive Step where
  | idea
  | questioning
  | generating
  | result
deriving DecidableEq

/-- The component state: one field per useState hook of the source,
plus a flag recording whether the tip-rotation interval is live. -/
structure WState where
  step : Step
  idea : String
  questions : List Question
  answers : List (String × String)
  prd : String
  loading : Bool
  generating : Bool
  copied : Bool
  timeLeft : Nat
  timerActive : Bool
  currentTipIndex : Nat
  rotatorLive : Bool
deriving DecidableEq

/-- The initial state from the useState initializers. -/
def initState : WState :=
  { step := Step.idea, idea := "", questions := [], answers := [], prd := "",
    loading := false, generating := false, copied := false,
    timeLeft := 60, timerActive := false, currentTipIndex := 0, rotatorLive := false }

/-- A user-facing toast notification. -/
inductive Notif where
  | success (msg : String)
  | error (msg : String)
deriving DecidableEq

/-- Result of running a handler: the new state, the notifications it
emitted, and whether it called out to a collaborator. -/
structure HResult where
  state : WState
  toasts : List Notif
  apiCalled : Bool
deriving DecidableEq

/-- JS String.prototype.trim on a character list. -/
def jsTrim (cs : List Char) : List Char :=
  ((cs.dropWhile Char.isWhitespace).reverse.dropWhile Char.isWhitespace).reverse

/-- The step-change effect from the source: freshly entering the
questioning step restarts the countdown at the 60-second budget;
leaving it deactivates the timer and clears its interval. -/
def timerStepEffect (s : WState) : WState :=
  if s.step = Step.questioning ∧ s.timerActive = false then
    { s with timeLeft := 60, timerActive := true }
  else if s.step ≠ Step.questioning then
    { s with timerActive := false }
  else s

/-- The tip-rotation effect from the source: while generating, the tip
index resets to 0 and the rotation interval is live; when generation
ends the cleanup clears the interval. -/
def tipsEffect (s : WState) : WState :=
  if s.generating then { s with currentTipIndex := 0, rotatorLive := true }
  else { s with rotatorLive := false }

/-- handleAnalyze from the source: an empty (trimmed) idea is rejected
with a validation toast and no collaborator call; on success the
question sequence is populated and the step becomes questioning (the
step-change effect then starts the timer); on failure the state keeps
its phase and the server detail (or a generic message) is surfaced. -/
def handleAnalyze (s : WState) (res : Except (Option String) (List Question)) : HResult :=
  if jsTrim s.idea.data = [] then
    { state := s, toasts := [Notif.error "Please describe your app idea"], apiCalled := false }
  else
    match res with
    | Except.ok qs =>
      { state := timerStepEffect { s with questions := qs, step := Step.questioning, loading := false },
        toasts := [Notif.success "Analyzing complete"], apiCalled := true }
    | Except.error detail =>
      { state := { s with loading := false },
        toasts := [Notif.error (detail.getD "Failed to analyze idea")], apiCalled := true }

/-- handleGeneratePRD from the source: an incomplete answer set is
rejected with a validation toast and no collaborator call; otherwise
the step moves to the generating view (effects stop the timer and
start the rotator), then on success the document is populated and the
step becomes result, and on failure the step returns to questioning
(the step-change effect restarts the timer at the full budget). -/
def handleGeneratePRD (s : WState) (res : Except (Option String) String) : HResult :=
  if s.answers.length < s.questions.length then
    { state := s, toasts := [Notif.error "Please answer all questions"], apiCalled := false }
  else
    let mid := timerStepEffect (tipsEffect
      { s with loading := true, generating := true, step := Step.generating })
    match res with
    | Except.ok doc =>
      { state := timerStepEffect (tipsEffect
          { mid with prd := doc, step := Step.result, loading := false, generating := false }),
        toasts := [Notif.success "PRD generated successfully"], apiCalled := true }
    | Except.error detail =>
      { state := timerStepEffect (tipsEffect
          { mid with step := Step.questioning, loading := false, generating := false }),
        toasts := [Notif.error (detail.getD "Failed to generate PRD")], apiCalled := true }

/-- The two copy mechanisms of handleCopy: the modern clipboard
collaborator, or the hidden-textarea execCommand fallback. -/
inductive CopyMech where
  | clipboardApi
  | execFallback
deriving DecidableEq

/-- The mechanism handleCopy attempts: the clipboard collaborator when
it is available, else the fallback. -/
def copyMechanism (clipboardAvailable : Bool) : CopyMech :=
  if clipboardAvailable then CopyMech.clipboardApi else CopyMech.execFallback

/-- handleCopy from the source, with the outcome of the attempted
mechanism passed in: success marks the copied flag and reports
success, any thrown error is caught and reported as a failure toast
with manual-copy guidance; the step is never touched. -/
def handleCopy (s : WState) (copyOk : Bool) : WState × Notif :=
  if copyOk then ({ s with copied := true }, Notif.success "Copied to clipboard")
  else (s, Notif.error "Failed to copy - please select and copy manually")

/-- The copy action is rendered only in the result step. -/
def copyAvailable (s : WState) : Bool := s.step = Step.result

/-- handleReset from the source: everything returns to its initial
value and the timer is deactivated. -/
def handleReset (s : WState) : WState :=
  timerStepEffect
    { s with step := Step.idea, idea := "", questions := [], answers := [], prd := "",
             copied := false, timeLeft := 60, timerActive := false }

/-- Overwriting insertion into the answer map, as the JS object spread
with a computed key behaves: an existing key keeps its position with
the new value, a new key is appended. -/
def setAns : List (String × String) → String → String → List (String × String)
  | [], k, v => [(k, v)]
  | (k0, v0) :: rest, k, v =>
    if k0 = k then (k, v) :: rest else (k0, v0) :: setAns rest k v

/-- User-interface events the component can receive, with the outcome
of any collaborator call passed in explicitly. -/
inductive Ev where
  | setIdea (t : String)
  | analyze (res : Except (Option String) (List Question))
  | selectAns (qid v : String)
  | back
  | generate (res : Except (Option String) String)
  | tick
  | rotate
  | copy (clipboardAvailable copyOk : Bool)
  | reset

/-- One step of the workflow: each event applies its handler exactly
when the source renders the triggering control (step gate and disabled
attribute), and is a no-op otherwise. -/
def stepEv (e : Ev) (s : WState) : WState :=
  match e with
  | Ev.setIdea t => if s.step = Step.idea then { s with idea := t } else s
  | Ev.analyze res =>
    if s.step = Step.idea ∧ s.loading = false then (handleAnalyze s res).state else s
  | Ev.selectAns qid v =>
    if s.step = Step.questioning ∧ qid ∈ s.questions.map Question.id then
      { s with answers := setAns s.answers qid v }
    else s
  | Ev.back =>
    if s.step = Step.questioning then timerStepEffect { s with step := Step.idea } else s
  | Ev.generate res =>
    if s.step = Step.questioning ∧ s.loading = false ∧ ¬ s.answers.length < s.questions.length then
      (handleGeneratePRD s res).state
    else s
  | Ev.tick =>
    if s.timerActive ∧ 0 < s.timeLeft then { s with timeLeft := s.timeLeft - 1 } else s
  | Ev.rotate =>
    if s.rotatorLive then
      { s with currentTipIndex := (s.currentTipIndex + 1) % PRD_TIPS.length }
    else s
  | Ev.copy _ copyOk =>
    if s.step = Step.result then (handleCopy s copyOk).1 else s
  | Ev.reset => if s.step = Step.result then handleReset s else s

/-- Reachability from the initial state under any event sequence. -/
inductive Reachable : WState → Prop
  | init : Reachable initState
  | next (s : WState) (e : Ev) : Reachable s → Reachable (stepEv e s)

/-- Run a list of events from a state. -/
def runEvents (es : List Ev) (s : WState) : WState :=
  es.foldl (fun s e => stepEv e s) s

/-- The invariant of the claim: every key of the answer map is the id
of a currently loaded question. -/
def keysInvB (s : WState) : Bool :=
  s.answers.all (fun kv => decide (kv.1 ∈ s.questions.map Question.id))

/-- The completion gate of the source (the generate guard and its
disabled attribute, negated): the answer set counts as complete exactly
when the answered count is not below the question count. -/
def isComplete (answers : List (String × String)) (questions : List Question) : Bool :=
  ! decide (answers.length < questions.length)

/-- A sample clarifying question (auth category). -/
def qAuth : Question :=
  { id := "q1", category := "auth", question := "Do you need user accounts?",
    options := [{ value := "yes", label := "Yes" }, { value := "no", label := "No" }] }

/-- A sample clarifying question (data category). -/
def qData : Question :=
  { id := "q2", category := "data_complexity", question := "How complex is your data?",
    options := [{ value := "simple", label := "Simple" }, { value := "relational", label := "Relational" }] }

/-- A sample clarifying question (layout category). -/
def qUi : Question :=
  { id := "q3", category := "ui_layout", question := "Which layout do you prefer?",
    options := [{ value := "single", label := "Single page" }, { value := "dashboard", label := "Dashboard" }] }

/-- A sample clarifying question (features category). -/
def qScope : Question :=
  { id := "q4", category := "features", question := "Which scope fits the MVP?",
    options := [{ value := "core", label := "Core only" }, { value := "full", label := "Full" }] }

/-- An event trace that answers a first question sequence, goes back to
the idea step and re-runs the analysis, which loads a fresh question
sequence while the old answers are retained. -/
def staleTrace : List Ev :=
  [Ev.setIdea "a chat app",
   Ev.analyze (Except.ok [qAuth, qData, qUi]),
   Ev.selectAns "q1" "yes",
   Ev.selectAns "q2" "simple",
   Ev.selectAns "q3" "single",
   Ev.back,
   Ev.setIdea "a todo app",
   Ev.analyze (Except.ok [qScope])]

/-- The state the stale trace reaches. -/
def staleState : WState := runEvents staleTrace initState

/-- A questioning-phase state with one question answered, used as a
concrete session for the generation-failure theorem. -/
def cQState : WState :=
  { initState with step := Step.questioning, questions := [qAuth],
                   answers := [("q1", "yes")], timerActive := true }

/-! ## Supporting lemmas -/

theorem string_mk_data (s : String) : String.mk s.data = s := rfl

theorem timerStepEffect_answers (s : WState) : (timerStepEffect s).answers = s.answers := by
  unfold timerStepEffect; split_ifs <;> rfl

theorem timerStepEffect_questions (s : WState) : (timerStepEffect s).questions = s.questions := by
  unfold timerStepEffect; split_ifs <;> rfl

theorem tipsEffect_answers (s : WState) : (tipsEffect s).answers = s.answers := by
  unfold tipsEffect; split_ifs <;> rfl

theorem tipsEffect_questions (s : WState) : (tipsEffect s).questions = s.questions := by
  unfold tipsEffect; split_ifs <;> rfl

theorem keysInvB_congr (s s' : WState) (ha : s'.answers = s.answers)
    (hq : s'.questions = s.questions) : keysInvB s' = keysInvB s := by
  simp [keysInvB, ha, hq]

theorem reachable_runEvents (es : List Ev) {s : WState} (h : Reachable s) :
    Reachable (runEvents es s) := by
  induction es generalizing s with
  | nil => exact h
  | cons e es ih => exact ih (Reachable.next s e h)

theorem setAns_all (p : String × String → Bool) (l : List (String × String)) (k v : String)
    (hl : l.all p = true) (hk : p (k, v) = true) : (setAns l k v).all p = true := by
  induction l with
  | nil => simp [setAns, hk]
  | cons kv rest ih =>
    obtain ⟨k0, v0⟩ := kv
    simp only [List.all_cons, Bool.and_eq_true] at hl
    by_cases h : k0 = k
    · simp [setAns, h, hk, hl.2]
    · simp [setAns, h, hl.1, ih hl.2]

theorem boldHere_none {c : Char} (cs : List Char) (h : c ≠ '*') : boldHere (c :: cs) = none := by
  cases cs with
  | nil => rfl
  | cons c2 rest => simp [boldHere, h]

theorem findBold_none (cs : List Char) (h : ∀ c ∈ cs, c ≠ '*') : findBold cs = none := by
  induction cs with
  | nil => rfl
  | cons c cs ih =>
    have hc : c ≠ '*' := h c (List.mem_cons_self c cs)
    have ih' := ih (fun x hx => h x (List.mem_cons_of_mem c hx))
    simp [findBold, boldHere_none cs hc, ih']

theorem codeHere_none {c : Char} (cs : List Char) (h : c ≠ btick) : codeHere (c :: cs) = none := by
  simp [codeHere, h]

theorem findCode_none (cs : List Char) (h : ∀ c ∈ cs, c ≠ btick) : findCode cs = none := by
  induction cs with
  | nil => rfl
  | cons c cs ih =>
    have hc : c ≠ btick := h c (List.mem_cons_self c cs)
    have ih' := ih (fun x hx => h x (List.mem_cons_of_mem c hx))
    simp [findCode, codeHere_none cs hc, ih']

theorem splitBold_of_none (cs : List Char) (h : findBold cs = none) : splitBold cs = [cs] := by
  show splitBoldF cs.length cs = [cs]
  rcases hn : cs.length with _ | n <;> simp [splitBoldF, h]

theorem splitCode_of_none (cs : List Char) (h : findCode cs = none) : splitCode cs = [cs] := by
  show splitCodeF cs.length cs = [cs]
  rcases hn : cs.length with _ | n <;> simp [splitCodeF, h]

theorem startsW_nonmem {d : Char} (ds cs : List Char) (h : ∀ c ∈ cs, c ≠ d) :
    startsW (d :: ds) cs = false := by
  cases cs with
  | nil => rfl
  | cons c cs' =>
    have hc : c ≠ d := h c (List.mem_cons_self c cs')
    have hd : d ≠ c := fun hdc => hc hdc.symm
    simp [startsW, hd]

/-! ## Claim theorems -/

/-- C5: the countdown timer started with budget 60 reaches remaining 0
and expired after 60 ticks; a live tick with positive remaining
decrements by exactly one; a live tick at one second or less self-stops
at 0; a tick at remaining 0 stays at 0 (never negative); and after
stop no number of further ticks changes the state. -/
theorem countdown_timer_spec :
    (timerTick^[60] (timerStart 60)).remaining = 0
  ∧ timerExpired (timerTick^[60] (timerStart 60)) = true
  ∧ (∀ t : TimerState, t.live = true → 0 < t.remaining →
      (timerTick t).remaining = t.remaining - 1)
  ∧ (∀ t : TimerState, t.live = true → t.remaining ≤ 1 →
      timerTick t = { remaining := 0, live := false })
  ∧ (∀ b : Bool, timerTick { remaining := 0, live := b } = { remaining := 0, live := false })
  ∧ (∀ (t : TimerState) (n : Nat), timerTick^[n] (timerStop t) = timerStop t) := by
  refine ⟨by set_option maxRecDepth 4000 in decide, by set_option maxRecDepth 4000 in decide, ?_, ?_, ?_, ?_⟩
  · intro t h1 h2
    simp only [timerTick, h1, if_true]
    split_ifs with h3
    · have h4 : t.remaining = 1 := Nat.le_antisymm h3 h2
      simp [h4]
    · rfl
  · intro t h1 h2
    simp [timerTick, h1, h2]
  · intro b
    cases b <;> rfl
  · intro t n
    apply Function.iterate_fixed
    simp [timerTick, timerStop]

/-- Witness for C5 at concrete inputs. -/
theorem countdown_timer_spec_witness :
    (timerTick { remaining := 5, live := true }).remaining = 5 - 1
  ∧ timerTick { remaining := 1, live := true } = { remaining := 0, live := false }
  ∧ timerTick^[3] (timerStop { remaining := 7, live := true })
      = timerStop { remaining := 7, live := true } :=
  ⟨countdown_timer_spec.2.2.1 _ rfl (by decide),
   countdown_timer_spec.2.2.2.1 _ rfl (by decide),
   countdown_timer_spec.2.2.2.2.2 _ 3⟩

/-- C8: the tip list has length 8; the rotator starts at index 0; after
8 ticks the index is back to 0; a live tick advances the index by one
modulo the list length; after stop any number of further ticks leaves
the index unchanged. -/
theorem tip_rotator_spec :
    PRD_TIPS.length = 8
  ∧ rotStart.idx = 0
  ∧ (rotTick^[8] rotStart).idx = 0
  ∧ (∀ r : RotState, r.live = true → (rotTick r).idx = (r.idx + 1) % PRD_TIPS.length)
  ∧ (∀ (r : RotState) (n : Nat), (rotTick^[n] (rotStop r)).idx = r.idx) := by
  refine ⟨rfl, rfl, by decide, ?_, ?_⟩
  · intro r h
    simp [rotTick, h]
  · intro r n
    have hfix : rotTick (rotStop r) = rotStop r := by simp [rotTick, rotStop]
    rw [Function.iterate_fixed hfix]
    rfl

/-- Witness for C8 at concrete inputs. -/
theorem tip_rotator_spec_witness :
    (rotTick { idx := 3, live := true }).idx = 4
  ∧ (rotTick^[5] (rotStop { idx := 6, live := true })).idx = 6 :=
  ⟨(tip_rotator_spec.2.2.2.1 { idx := 3, live := true } rfl).trans (by decide),
   tip_rotator_spec.2.2.2.2 { idx := 6, live := true } 5⟩

/-- C6: rendering the sample markdown input produces a level-1 heading
"Title", a line break, and two list items, the second holding a bold
span "bold" and a code span "code"; and the per-line classifier maps
each recognized form (h1, h2, h3, fence, horizontal rule, list item,
blank line) as the stated priority order prescribes. -/
theorem markdown_renderer_spec :
    renderMarkdown "# Title\n\n- item one\n- **bold** and `code`" =
      [Block.h1 "Title", Block.br, Block.li [Inline.text "item one"],
       Block.li [Inline.text "", Inline.bold "bold", Inline.text " and ",
                 Inline.code "code", Inline.text ""]]
  ∧ (∀ cs : List Char, renderLineC ('#' :: ' ' :: cs) = some (Block.h1 (String.mk cs)))
  ∧ (∀ cs : List Char, renderLineC ('#' :: '#' :: ' ' :: cs) = some (Block.h2 (String.mk cs)))
  ∧ (∀ cs : List Char, renderLineC ('#' :: '#' :: '#' :: ' ' :: cs) = some (Block.h3 (String.mk cs)))
  ∧ (∀ cs : List Char, renderLineC (btick :: btick :: btick :: cs) = none)
  ∧ renderLineC ['-', '-', '-'] = some Block.hr
  ∧ (∀ cs : List Char, renderLineC ('-' :: ' ' :: cs) = some (Block.li (formatInlineC cs)))
  ∧ renderLineC [] = some Block.br :=
  ⟨by decide, fun _ => rfl, fun _ => rfl, fun _ => rfl, fun _ => rfl, rfl, fun _ => rfl, rfl⟩

/-- C10: on input free of asterisks and backticks the inline pass is
the identity, returning the whole text as one literal segment. -/
theorem inline_pass_identity (s : String)
    (h : ∀ c ∈ s.data, c ≠ '*' ∧ c ≠ btick) :
    formatInlineStyles s = [Inline.text s] := by
  have hstar : ∀ c ∈ s.data, c ≠ '*' := fun c hc => (h c hc).1
  have htick : ∀ c ∈ s.data, c ≠ btick := fun c hc => (h c hc).2
  have h1 : splitBold s.data = [s.data] := splitBold_of_none _ (findBold_none _ hstar)
  have h2 : splitCode s.data = [s.data] := splitCode_of_none _ (findCode_none _ htick)
  have h3 : startsW ['*', '*'] s.data = false := startsW_nonmem _ _ hstar
  have h4 : startsW [btick] s.data = false := startsW_nonmem _ _ htick
  simp [formatInlineStyles, formatInlineC, h1, h3, codePass, h2, h4, string_mk_data]

/-- Witness for C10 at a concrete input. -/
theorem inline_pass_identity_witness :
    formatInlineStyles "hello world" = [Inline.text "hello world"] :=
  inline_pass_identity "hello world" (by decide)

/-- C7: an idea that trims to nothing is rejected by handleAnalyze: the
state (and so the phase) is unchanged, a validation toast is emitted,
and no collaborator call is made. -/
theorem empty_idea_rejected (s : WState) (res : Except (Option String) (List Question))
    (h : jsTrim s.idea.data = []) :
    handleAnalyze s res =
      { state := s, toasts := [Notif.error "Please describe your app idea"],
        apiCalled := false } := by
  simp [handleAnalyze, h]

/-- Witness for C7 at a whitespace-only idea. -/
theorem empty_idea_rejected_witness :
    handleAnalyze { initState with idea := "   " } (Except.ok [qAuth]) =
      { state := { initState with idea := "   " },
        toasts := [Notif.error "Please describe your app idea"], apiCalled := false } :=
  empty_idea_rejected _ _ (by decide)

/-- C9: the copy action never changes the step (neither in the handler
nor through the event machine), always reports either the success toast
or the failure toast (the thrown error is caught, never propagated),
attempts the clipboard collaborator exactly when it is available and
the fallback otherwise, and its trigger is rendered only in the result
phase. -/
theorem copy_action_spec :
    ∀ (s : WState) (clipboardAvailable copyOk : Bool),
      (handleCopy s copyOk).1.step = s.step
    ∧ (stepEv (Ev.copy clipboardAvailable copyOk) s).step = s.step
    ∧ ((handleCopy s copyOk).2 = Notif.success "Copied to clipboard"
        ∨ (handleCopy s copyOk).2 = Notif.error "Failed to copy - please select and copy manually")
    ∧ copyMechanism clipboardAvailable
        = (if clipboardAvailable then CopyMech.clipboardApi else CopyMech.execFallback)
    ∧ (copyAvailable s = true ↔ s.step = Step.result) := by
  intro s ca ok
  refine ⟨?_, ?_, ?_, rfl, ?_⟩
  · cases ok <;> rfl
  · by_cases h : s.step = Step.result
    · cases ok <;> simp [stepEv, h, handleCopy]
    · simp [stepEv, h]
  · cases ok
    · right; rfl
    · left; rfl
  · simp [copyAvailable]

/-- C2: when the answer set is complete, a failing generation call
brings the step back to questioning, leaves every answer exactly as it
was, restarts the countdown at the full 60-second budget with the timer
active, and surfaces the server detail or the generic failure
message. -/
theorem generation_failure_spec (s : WState) (detail : Option String)
    (h : s.questions.length ≤ s.answers.length) :
    (handleGeneratePRD s (Except.error detail)).state.step = Step.questioning
  ∧ (handleGeneratePRD s (Except.error detail)).state.answers = s.answers
  ∧ (handleGeneratePRD s (Except.error detail)).state.timeLeft = 60
  ∧ (handleGeneratePRD s (Except.error detail)).state.timerActive = true
  ∧ (handleGeneratePRD s (Except.error detail)).toasts
      = [Notif.error (detail.getD "Failed to generate PRD")] := by
  have hn : ¬ s.answers.length < s.questions.length := Nat.not_lt.mpr h
  refine ⟨?_, ?_, ?_, ?_, ?_⟩ <;>
    simp [handleGeneratePRD, hn, timerStepEffect, tipsEffect]

/-- Witness for C2 at a concrete complete questioning-phase session. -/
theorem generation_failure_spec_witness :
    (handleGeneratePRD cQState (Except.error (some "LLM timeout"))).state.step = Step.questioning
  ∧ (handleGeneratePRD cQState (Except.error (some "LLM timeout"))).state.answers = cQState.answers
  ∧ (handleGeneratePRD cQState (Except.error (some "LLM timeout"))).state.timeLeft = 60
  ∧ (handleGeneratePRD cQState (Except.error (some "LLM timeout"))).state.timerActive = true
  ∧ (handleGeneratePRD cQState (Except.error (some "LLM timeout"))).toasts
      = [Notif.error ((some "LLM timeout").getD "Failed to generate PRD")] :=
  generation_failure_spec cQState (some "LLM timeout") (by decide)

/-- C3: from a fresh session holding a non-empty (trimmed) idea, a
successful analysis with N questions moves the step to questioning with
exactly those questions loaded and an empty answer set, while a failing
analysis keeps the step at idea, loads no partial question sequence,
keeps the answer set empty and surfaces the server detail or the
generic failure message. -/
theorem analyze_transition_spec (idea0 : String) (qs : List Question) (detail : Option String)
    (h : jsTrim idea0.data ≠ []) :
    (handleAnalyze (stepEv (Ev.setIdea idea0) initState) (Except.ok qs)).state.step = Step.questioning
  ∧ (handleAnalyze (stepEv (Ev.setIdea idea0) initState) (Except.ok qs)).state.questions = qs
  ∧ (handleAnalyze (stepEv (Ev.setIdea idea0) initState) (Except.ok qs)).state.answers = []
  ∧ (handleAnalyze (stepEv (Ev.setIdea idea0) initState) (Except.ok qs)).toasts
      = [Notif.success "Analyzing complete"]
  ∧ (handleAnalyze (stepEv (Ev.setIdea idea0) initState) (Except.error detail)).state.step = Step.idea
  ∧ (handleAnalyze (stepEv (Ev.setIdea idea0) initState) (Except.error detail)).state.questions = []
  ∧ (handleAnalyze (stepEv (Ev.setIdea idea0) initState) (Except.error detail)).state.answers = []
  ∧ (handleAnalyze (stepEv (Ev.setIdea idea0) initState) (Except.error detail)).toasts
      = [Notif.error (detail.getD "Failed to analyze idea")] := by
  have hs : stepEv (Ev.setIdea idea0) initState = { initState with idea := idea0 } := rfl
  rw [hs]
  refine ⟨?_, ?_, ?_, ?_, ?_, ?_, ?_, ?_⟩ <;>
    simp [handleAnalyze, h, timerStepEffect, initState]

/-- Witness for C3 at a concrete idea and two-question analysis. -/
theorem analyze_transition_spec_witness :
    (handleAnalyze (stepEv (Ev.setIdea "a todo app") initState)
        (Except.ok [qAuth, qData])).state.questions = [qAuth, qData]
  ∧ (handleAnalyze (stepEv (Ev.setIdea "a todo app") initState)
        (Except.ok [qAuth, qData])).state.answers = [] :=
  ⟨(analyze_transition_spec "a todo app" [qAuth, qData] none (by decide)).2.1,
   (analyze_transition_spec "a todo app" [qAuth, qData] none (by decide)).2.2.1⟩

/-- C1 counterexample: the subset invariant does not hold at every
reachable state — answering a question sequence, going back to the idea
step and re-running the analysis reaches a state whose answer keys are
not ids of the freshly loaded question sequence. -/
theorem answer_keys_invariant_refuted :
    ¬ (∀ s : WState, Reachable s → keysInvB s = true) := by
  intro h
  have hr : Reachable staleState := reachable_runEvents staleTrace Reachable.init
  have hv := h staleState hr
  revert hv
  decide

/-- C1 amended: the subset invariant holds at the initial state and is
preserved by every event except a successful analysis performed while
answers are retained; in particular it holds along every trace in which
each successful analysis happens with an empty answer set. -/
theorem answer_keys_invariant_amended :
    keysInvB initState = true
  ∧ (∀ (s : WState) (e : Ev), keysInvB s = true →
      (∀ res qs, e = Ev.analyze res → res = Except.ok qs → s.answers = []) →
      keysInvB (stepEv e s) = true) := by
  constructor
  · rfl
  · intro s e hinv hana
    cases e with
    | setIdea t =>
      simp only [stepEv]
      split_ifs with h
      · exact hinv
      · exact hinv
    | analyze res =>
      simp only [stepEv]
      split_ifs with h
      · by_cases ht : jsTrim s.idea.data = []
        · simpa [handleAnalyze, ht] using hinv
        · cases res with
          | ok qs =>
            have hemp : s.answers = [] := hana (Except.ok qs) qs rfl rfl
            simp [handleAnalyze, ht, keysInvB, timerStepEffect_answers, hemp]
          | error d =>
            have hst : (handleAnalyze s (Except.error d)).state = { s with loading := false } := by
              simp [handleAnalyze, ht]
            rw [hst]
            exact hinv
      · exact hinv
    | selectAns qid v =>
      simp only [stepEv]
      split_ifs with h
      · have hq : qid ∈ s.questions.map Question.id := h.2
        simp only [keysInvB] at hinv ⊢
        exact setAns_all _ _ _ _ hinv (decide_eq_true hq)
      · exact hinv
    | back =>
      simp only [stepEv]
      split_ifs with h
      · exact (keysInvB_congr s (timerStepEffect { s with step := Step.idea })
          (timerStepEffect_answers _) (timerStepEffect_questions _)).trans hinv
      · exact hinv
    | generate res =>
      simp only [stepEv]
      split_ifs with h
      · have hn : ¬ s.answers.length < s.questions.length := h.2.2
        cases res with
        | ok doc =>
          refine (keysInvB_congr s _ ?_ ?_).trans hinv
          · simp [handleGeneratePRD, hn, timerStepEffect_answers, tipsEffect_answers]
          · simp [handleGeneratePRD, hn, timerStepEffect_questions, tipsEffect_questions]
        | error d =>
          refine (keysInvB_congr s _ ?_ ?_).trans hinv
          · simp [handleGeneratePRD, hn, timerStepEffect_answers, tipsEffect_answers]
          · simp [handleGeneratePRD, hn, timerStepEffect_questions, tipsEffect_questions]
      · exact hinv
    | tick =>
      simp only [stepEv]
      split_ifs with h
      · exact hinv
      · exact hinv
    | rotate =>
      simp only [stepEv]
      split_ifs with h
      · exact hinv
      · exact hinv
    | copy ca ok =>
      simp only [stepEv]
      split_ifs with h
      · cases ok
        · exact hinv
        · exact hinv
      · exact hinv
    | reset =>
      simp only [stepEv]
      split_ifs with h
      · simp [handleReset, keysInvB, timerStepEffect_answers]
      · exact hinv

/-- Witness for the amended C1 at a concrete event. -/
theorem answer_keys_invariant_amended_witness :
    keysInvB (stepEv Ev.back initState) = true :=
  answer_keys_invariant_amended.2 initState Ev.back rfl
    (fun _ _ hcon _ => Ev.noConfusion hcon)

/-- C4 counterexample: the stale trace reaches a state whose completion
gate is satisfied while the answered count differs from the question
count, refuting the claimed if-and-only-if with count equality. -/
theorem completeness_iff_refuted :
    Reachable staleState
  ∧ isComplete staleState.answers staleState.questions = true
  ∧ staleState.answers.length ≠ staleState.questions.length :=
  ⟨reachable_runEvents staleTrace Reachable.init, by decide, by decide⟩

/-- C4 amended: the completion gate is true exactly when the answered
count is at least the question count (equality only when the answer
keys stay within the current ids), and a submission with the answered
count below the question count is rejected with the validation toast,
an unchanged state and no collaborator call. -/
theorem completeness_spec_amended :
    (∀ (a : List (String × String)) (q : List Question),
        isComplete a q = true ↔ q.length ≤ a.length)
  ∧ (∀ (s : WState) (res : Except (Option String) String),
        s.answers.length < s.questions.length →
        handleGeneratePRD s res =
          { state := s, toasts := [Notif.error "Please answer all questions"],
            apiCalled := false }) := by
  constructor
  · intro a q
    simp [isComplete, Nat.not_lt]
  · intro s res h
    simp [handleGeneratePRD, h]

/-- Witness for the amended C4 at a concrete incomplete session. -/
theorem completeness_spec_amended_witness :
    handleGeneratePRD { initState with questions := [qAuth] } (Except.ok "PRD text")
      = { state := { initState with questions := [qAuth] },
          toasts := [Notif.error "Please answer all questions"], apiCalled := false } :=
  completeness_spec_amended.2 _ _ (by decide)

end DPRD
